import Mathlib

/-!
Verification development for the policy-gated MCP tool-invocation client
(`src/client_example.py`, class `MCPClientWithPassport`) and the OpenAI
integration layer (`src/openai-integration-example.py`, class
`OpenAIWithMCPPassport`).

The Python code is embedded shallowly: Python dicts become association
lists with Python update semantics (an existing key keeps its position and
gets the new value, a new key is appended), the stateful retry loop of
`call_tool` becomes a fuel-indexed recursion that threads the mutable
state (`current_args`, the attempt counter, `last_error`) explicitly and
records an event trace (attempt starts, policy-client calls, executor
calls, backoff sleeps).  The two external collaborators (the APort policy
client and the MCP session executor) are parameters: oracles indexed by
the number of calls made so far, so a single oracle value describes one
concrete behaviour of the outside world.
-/

namespace MCPGate

/-- A Python value as it appears in tool-call argument dicts: the examples
only use ints, strings and bools (Python bools are ints). -/
inductive Value where
  | vInt : Int → Value
  | vStr : String → Value
  | vBool : Bool → Value
  deriving DecidableEq, Repr

/-- A Python dict with string keys, as an ordered association list.
Dicts built by the embedded code never hold duplicate keys. -/
abbrev Args := List (String × Value)

/-- Association-list lookup (first occurrence), i.e. Python `d.get(k)`. -/
def assocGet {α : Type} : List (String × α) → String → Option α
  | [], _ => none
  | (k, v) :: t, key => if k = key then some v else assocGet t key

/-- Python dict lookup `d.get(k)` / `d[k]`. -/
def dictGet (d : Args) (k : String) : Option Value := assocGet d k

/-- Python dict item assignment `d[k] = v`: an existing key keeps its
position and gets the new value, a new key is appended at the end. -/
def dictSet (d : Args) (k : String) (v : Value) : Args :=
  match d with
  | [] => [(k, v)]
  | (k', v') :: t => if k' = k then (k, v) :: t else (k', v') :: dictSet t k v

/-- Python `{**base, **l}`: insert the entries of `l` into `base` in order. -/
def dictSpread (base : Args) (l : Args) : Args :=
  l.foldl (fun d kv => dictSet d kv.1 kv.2) base

/-- Python `k in d`. -/
def dictHasKey (d : Args) (k : String) : Bool := (dictGet d k).isSome

/-- A reason attached to a policy decision (`{code, message}`). -/
structure Reason where
  code : String
  message : String
  deriving DecidableEq, Repr

/-- A policy decision as returned by `aport_client.verify_policy`. -/
structure Decision where
  decision_id : String
  allow : Bool
  reasons : List Reason
  deriving DecidableEq, Repr

/-- One item of an MCP tool result `content` list: a dict whose `type` is
`"text"` carrying a `text` field (`content.get("text", "")` defaults to
the empty string), or anything else. -/
inductive ContentItem where
  | textItem : String → ContentItem
  | other : ContentItem
  deriving DecidableEq, Repr

/-- The raw result returned by `session.call_tool`. -/
structure ToolResult where
  content : List ContentItem
  deriving DecidableEq, Repr

/-- The payload carried by a `PolicyDeniedError` (its `result` attribute):
either the client-side decision or the raw server tool result. -/
inductive DenialPayload where
  | fromDecision : Decision → DenialPayload
  | fromResult : ToolResult → DenialPayload
  deriving DecidableEq, Repr

/-- A Python exception as raised or propagated by the embedded code. -/
inductive PyErr where
  | policyDenied : String → DenialPayload → PyErr
  | valueError : String → PyErr
  | runtimeError : String → PyErr
  | typeError : String → PyErr
  | generic : String → PyErr
  deriving DecidableEq, Repr

/-- `str(e)` for an embedded exception: its message. -/
def errStr : PyErr → String
  | PyErr.policyDenied m _ => m
  | PyErr.valueError m => m
  | PyErr.runtimeError m => m
  | PyErr.typeError m => m
  | PyErr.generic m => m

/-- One response of the policy client `verify_policy`: a decision, or a
raised exception (e.g. a network failure). -/
inductive ClientResp where
  | decision : Decision → ClientResp
  | raiseErr : PyErr → ClientResp

/-- One response of the MCP session executor `session.call_tool`. -/
inductive ExecResp where
  | result : ToolResult → ExecResp
  | raiseErr : PyErr → ExecResp

/-- The policy client as an oracle: response to the n-th verification
call, given the context sent. -/
abbrev PolicyClient := Nat → Args → ClientResp

/-- The tool executor as an oracle: response to the n-th executor call,
given the outbound arguments sent. -/
abbrev ToolExecutor := Nat → Args → ExecResp

/-- `_get_policy_id_for_tool`: the static tool-name → policy-id mapping
(src/client_example.py lines 105-116). -/
def tool_to_policy_map : List (String × String) :=
  [("merge_pull_request", "code.repository.merge.v1"),
   ("process_refund", "finance.payment.refund.v1"),
   ("export_customer_data", "data.export.create.v1"),
   ("publish_release", "code.release.publish.v1"),
   ("send_message", "messaging.message.send.v1"),
   ("execute_transaction", "finance.transaction.execute.v1"),
   ("access_data", "governance.data.access.v1"),
   ("crypto_trade", "finance.crypto.trade.v1"),
   ("ingest_report", "data.report.ingest.v1"),
   ("review_contract", "legal.contract.review.v1")]

/-- The `ValueError` message for an unmapped tool name. -/
def unmappedToolMessage (tool_name : String) : String :=
  "No policy mapping found for tool: " ++ tool_name ++ ". Available tools: "
    ++ String.intercalate ", " (tool_to_policy_map.map Prod.fst)

/-- `_get_policy_id_for_tool`: lookup, raising `ValueError` when the tool
has no mapping (`if not policy_id` also catches a falsy empty string). -/
def get_policy_id_for_tool (tool_name : String) : Except PyErr String :=
  match assocGet tool_to_policy_map tool_name with
  | some policy_id =>
      if policy_id = "" then Except.error (PyErr.valueError (unmappedToolMessage tool_name))
      else Except.ok policy_id
  | none => Except.error (PyErr.valueError (unmappedToolMessage tool_name))

/-- `_build_policy_context` (src/client_example.py lines 127-141): context
is `{"agent_id": self.agent_id, **args}` followed by per-tool enrichment
writes taken from `args.get(key, default)`. -/
def build_policy_context (agent_id tool_name : String) (args : Args) : Args :=
  let context := dictSpread [("agent_id", Value.vStr agent_id)] args
  if tool_name = "merge_pull_request" then
    let c := dictSet context "base_branch" ((dictGet args "base_branch").getD (Value.vStr "main"))
    dictSet c "pr_size_kb" ((dictGet args "pr_size_kb").getD (Value.vInt 250))
  else if tool_name = "process_refund" then
    dictSet context "reason_code" ((dictGet args "reason_code").getD (Value.vStr "customer_request"))
  else context

/-- The message of the client-side `PolicyDeniedError`
(`f"Policy denied: {reasons}"`, where `reasons` is the comma-joined
reason messages, or the literal `"Policy denied"` when the list is empty). -/
def denialMessage (d : Decision) : String :=
  "Policy denied: " ++
    (if d.reasons = [] then "Policy denied"
     else String.intercalate ", " (d.reasons.map Reason.message))

/-- Does `needle` occur at the head of `hay`? -/
def charsAt : List Char → List Char → Bool
  | [], _ => true
  | _ :: _, [] => false
  | c :: cs, d :: ds => c == d && charsAt cs ds

/-- Does `needle` occur anywhere in `hay`? -/
def charsIn (needle : List Char) : List Char → Bool
  | [] => charsAt needle []
  | d :: ds => charsAt needle (d :: ds) || charsIn needle ds

/-- Python `needle in hay` on strings. -/
def strContainsSub (hay needle : String) : Bool := charsIn needle.toList hay.toList

/-- The server-side denial scan (src/client_example.py lines 221-226): walk
`result.content` and return the text of the first `type == "text"` item
whose text contains the marker `"Policy denied"`. -/
def findDenialText : List ContentItem → Option String
  | [] => none
  | ContentItem.textItem t :: rest =>
      if strContainsSub t "Policy denied" then some t else findDenialText rest
  | ContentItem.other :: rest => findDenialText rest

/-- Python `int(n * 0.5)` for an int `n`: truncation toward zero of `n / 2`
(exact as long as the float product is exact, i.e. all magnitudes in the
examples). -/
def pyHalfInt (n : Int) : Int :=
  if 0 ≤ n then ((n.toNat / 2 : Nat) : Int) else -(((-n).toNat / 2 : Nat) : Int)

/-- `int(current_args[field] * 0.5)` on one argument value.  A Python bool
is an int (`int(True * 0.5) = 0`); multiplying a string by a float raises
`TypeError`, which escapes the `except` block. -/
def adjustArgValue : Value → Except PyErr Value
  | Value.vInt n => Except.ok (Value.vInt (pyHalfInt n))
  | Value.vBool _ => Except.ok (Value.vInt 0)
  | Value.vStr _ => Except.error (PyErr.typeError "multiply sequence by non-int of type float")

/-- The denial-retry argument adjustment (src/client_example.py lines
238-244): halve `amount` for `process_refund`, halve `limit` for
`export_customer_data`, otherwise keep the arguments unchanged. -/
def adjustArgsForRetry (tool_name : String) (cur : Args) : Except PyErr Args :=
  if tool_name = "process_refund" then
    match dictGet cur "amount" with
    | some v => (adjustArgValue v).map (fun v' => dictSet cur "amount" v')
    | none => Except.ok cur
  else if tool_name = "export_customer_data" then
    match dictGet cur "limit" with
    | some v => (adjustArgValue v).map (fun v' => dictSet cur "limit" v')
    | none => Except.ok cur
  else Except.ok cur

/-- One observable event of a `call_tool` run.  `attemptStart i a c`
records that attempt `i` began with `current_args` being the dict object
at address `a` with contents `c` (the caller's dict has address 0, the
`args.copy()` made at the start of `call_tool` has address 1; item
assignment mutates in place and keeps the address). -/
inductive Event where
  | attemptStart : Nat → Nat → Args → Event
  | verifyCall : Args → Decision → Event
  | verifyRaise : Args → PyErr → Event
  | executeCall : Args → ToolResult → Event
  | executeRaise : Args → PyErr → Event
  | sleepEvent : Nat → ℚ → Event
  deriving DecidableEq, Repr

/-- The configuration arguments of `call_tool` (Python defaults:
`retry_on_denial=False, max_retries=3, retry_backoff=1.0,
skip_verification=False`). -/
structure CallConfig where
  retry_on_denial : Bool
  max_retries : Nat
  retry_backoff : ℚ
  skip_verification : Bool
  deriving DecidableEq, Repr

/-- The outcome of the body of one `try:` block (one attempt). -/
structure AttemptResult where
  events : List Event
  vIdx : Nat
  eIdx : Nat
  out : Except PyErr ToolResult

/-- The outcome of the rest of the retry loop. -/
structure GoResult where
  events : List Event
  vIdx : Nat
  eIdx : Nat
  curFinal : Args
  result : Except PyErr ToolResult

/-- The outcome of the executor step of one attempt. -/
structure ExecOutcome where
  events : List Event
  eIdx : Nat
  out : Except PyErr ToolResult

/-- Step 2 of an attempt (src/client_example.py lines 205-229): check the
session, attach `agent_id` to the outbound arguments, call the executor,
scan the result for the server-side denial marker. -/
def runExecute (agent : String) (exec : ToolExecutor) (connected : Bool)
    (cur : Args) (eIdx : Nat) : ExecOutcome :=
  if connected = false then
    ⟨[], eIdx, Except.error (PyErr.runtimeError "Not connected to MCP server")⟩
  else
    let args_with_passport := dictSet cur "agent_id" (Value.vStr agent)
    match exec eIdx args_with_passport with
    | ExecResp.raiseErr e => ⟨[Event.executeRaise args_with_passport e], eIdx + 1, Except.error e⟩
    | ExecResp.result r =>
        match findDenialText r.content with
        | some t =>
            ⟨[Event.executeCall args_with_passport r], eIdx + 1,
             Except.error (PyErr.policyDenied t (DenialPayload.fromResult r))⟩
        | none => ⟨[Event.executeCall args_with_passport r], eIdx + 1, Except.ok r⟩

/-- The body of one `try:` block of `call_tool` (src/client_example.py
lines 170-229): unless skipped, resolve the policy id, build the context,
call the policy client, and raise `PolicyDeniedError` on a deny; then
dispatch to the executor. -/
def runAttempt (agent tool : String) (skipVer : Bool) (client : PolicyClient)
    (exec : ToolExecutor) (connected : Bool) (cur : Args) (vIdx eIdx : Nat) : AttemptResult :=
  if skipVer = true then
    let x := runExecute agent exec connected cur eIdx
    ⟨x.events, vIdx, x.eIdx, x.out⟩
  else
    match get_policy_id_for_tool tool with
    | Except.error e => ⟨[], vIdx, eIdx, Except.error e⟩
    | Except.ok _policy_id =>
        let context := build_policy_context agent tool cur
        match client vIdx context with
        | ClientResp.raiseErr e => ⟨[Event.verifyRaise context e], vIdx + 1, eIdx, Except.error e⟩
        | ClientResp.decision d =>
            if d.allow = true then
              let x := runExecute agent exec connected cur eIdx
              ⟨Event.verifyCall context d :: x.events, vIdx + 1, x.eIdx, x.out⟩
            else
              ⟨[Event.verifyCall context d], vIdx + 1, eIdx,
               Except.error (PyErr.policyDenied (denialMessage d) (DenialPayload.fromDecision d))⟩

/-- What an exception handler decides to do: re-raise (possibly a new
exception raised inside the handler), or sleep and run the next attempt
with the given `current_args`. -/
inductive HandlerStep where
  | stop : PyErr → HandlerStep
  | retry : Args → ℚ → HandlerStep

/-- The `except PolicyDeniedError` handler (src/client_example.py lines
231-251): when retry is enabled and attempts remain, adjust the arguments
(a `TypeError` raised by the adjustment escapes) and sleep
`retry_backoff * (attempt + 1)`; otherwise re-raise. -/
def denialHandler (cfg : CallConfig) (tool : String) (attempt : Nat) (cur : Args)
    (err : PyErr) : HandlerStep :=
  if cfg.retry_on_denial = true ∧ attempt < cfg.max_retries - 1 then
    match adjustArgsForRetry tool cur with
    | Except.error e => HandlerStep.stop e
    | Except.ok cur' => HandlerStep.retry cur' (cfg.retry_backoff * ((attempt : ℚ) + 1))
  else HandlerStep.stop err

/-- The `except Exception` handler (src/client_example.py lines 253-258):
when attempts remain, sleep `retry_backoff * (attempt + 1)` and retry with
the same arguments; otherwise re-raise. -/
def genericHandler (cfg : CallConfig) (attempt : Nat) (cur : Args) (err : PyErr) : HandlerStep :=
  if attempt < cfg.max_retries - 1 then
    HandlerStep.retry cur (cfg.retry_backoff * ((attempt : ℚ) + 1))
  else HandlerStep.stop err

/-- The `for attempt in range(max_retries)` loop of `call_tool`, with fuel
`remaining = max_retries - attempt`.  `addr` is the address of the
`current_args` dict (1, allocated by `args.copy()`); item assignment keeps
it.  When the loop body never runs (`max_retries = 0`) the function falls
through to `raise last_error or Exception(...)`. -/
def callToolGo (agent tool : String) (cfg : CallConfig) (client : PolicyClient)
    (exec : ToolExecutor) (connected : Bool) (fuel attempt : Nat) (cur : Args)
    (addr vIdx eIdx : Nat) (lastErr : Option PyErr) : GoResult :=
  match fuel with
  | 0 =>
      ⟨[], vIdx, eIdx, cur,
       Except.error (lastErr.getD (PyErr.generic
         ("Failed to call " ++ tool ++ " after " ++ toString cfg.max_retries ++ " attempts")))⟩
  | Nat.succ r =>
      let a := runAttempt agent tool cfg.skip_verification client exec connected cur vIdx eIdx
      let g : GoResult :=
        match a.out with
        | Except.ok res => ⟨[], a.vIdx, a.eIdx, cur, Except.ok res⟩
        | Except.error (PyErr.policyDenied m p) =>
            match denialHandler cfg tool attempt cur (PyErr.policyDenied m p) with
            | HandlerStep.stop e2 => ⟨[], a.vIdx, a.eIdx, cur, Except.error e2⟩
            | HandlerStep.retry cur' delay =>
                let k := callToolGo agent tool cfg client exec connected r (attempt + 1) cur' addr
                  a.vIdx a.eIdx (some (PyErr.policyDenied m p))
                ⟨Event.sleepEvent attempt delay :: k.events, k.vIdx, k.eIdx, k.curFinal, k.result⟩
        | Except.error err =>
            match genericHandler cfg attempt cur err with
            | HandlerStep.stop e2 => ⟨[], a.vIdx, a.eIdx, cur, Except.error e2⟩
            | HandlerStep.retry cur' delay =>
                let k := callToolGo agent tool cfg client exec connected r (attempt + 1) cur' addr
                  a.vIdx a.eIdx (some err)
                ⟨Event.sleepEvent attempt delay :: k.events, k.vIdx, k.eIdx, k.curFinal, k.result⟩
      ⟨Event.attemptStart attempt addr cur :: a.events ++ g.events, g.vIdx, g.eIdx, g.curFinal, g.result⟩
termination_by structural fuel

/-- The outcome of a whole `call_tool` invocation.  `finalCaller` is the
contents of the caller-supplied dict (address 0) after the call: the code
copies it once (`current_args = args.copy()`, line 167) and never writes
into the original, so it still holds the input entries. -/
structure CallOutcome where
  events : List Event
  verifyCalls : Nat
  execCalls : Nat
  finalCaller : Args
  finalCur : Args
  result : Except PyErr ToolResult

/-- `MCPClientWithPassport.call_tool` (src/client_example.py lines
143-260), with the APort client modeled as provided and the MCP session
state as `connected`. -/
def callTool (agent tool : String) (args : Args) (cfg : CallConfig)
    (client : PolicyClient) (exec : ToolExecutor) (connected : Bool) : CallOutcome :=
  let g := callToolGo agent tool cfg client exec connected cfg.max_retries 0 args 1 0 0 none
  ⟨g.events, g.vIdx, g.eIdx, args, g.curFinal, g.result⟩

/-- The OpenAI integration maps function names through a static table,
defaulting to the name itself
(src/openai-integration-example.py lines 57-69). -/
def openai_function_mapping : List (String × String) :=
  [("process_refund", "process_refund"),
   ("merge_pull_request", "merge_pull_request"),
   ("export_customer_data", "export_customer_data")]

/-- `_map_openai_function_to_mcp_tool`. -/
def map_openai_function_to_mcp_tool (function_name : String) : String :=
  ((openai_function_mapping.lookup function_name).getD function_name)

/-- A function-result message returned to OpenAI. -/
structure FunctionMessage where
  role : String
  name : String
  content : String
  deriving DecidableEq, Repr

/-- The first `type == "text"` item text of a content list, defaulting to
the empty string (`next((c.get("text","") for c in ... ), "")`). -/
def firstTextContent : List ContentItem → String
  | [] => ""
  | ContentItem.textItem t :: _ => t
  | ContentItem.other :: rest => firstTextContent rest

/-- `OpenAIWithMCPPassport.handle_function_call`
(src/openai-integration-example.py lines 71-126): route to
`call_tool(..., retry_on_denial=True, max_retries=3)`, format a success as
a function message, and catch every exception (`PolicyDeniedError` first,
then `Exception`), returning it as a typed function message.  The MCP
client is modeled as already connected. -/
def handle_function_call (agent function_name : String) (arguments : Args)
    (client : PolicyClient) (exec : ToolExecutor) (connected : Bool) : FunctionMessage :=
  let mcp_tool_name := map_openai_function_to_mcp_tool function_name
  let o := callTool agent mcp_tool_name arguments ⟨true, 3, 1, false⟩ client exec connected
  match o.result with
  | Except.ok r =>
      if r.content = [] then ⟨"function", function_name, "Tool executed successfully"⟩
      else ⟨"function", function_name, firstTextContent r.content⟩
  | Except.error (PyErr.policyDenied m p) =>
      ⟨"function", function_name, "Policy denied: " ++ errStr (PyErr.policyDenied m p)⟩
  | Except.error e => ⟨"function", function_name, "Error: " ++ errStr e⟩

/-! ## Observables of a run, used to state the claims -/

/-- The outbound arguments of an executor-call event (a dispatch happened,
whether it returned or raised), `none` for every other event. -/
def execArgsOf : Event → Option Args
  | Event.executeCall a _ => some a
  | Event.executeRaise a _ => some a
  | _ => none

/-- The context of a policy-client call event, `none` otherwise. -/
def ctxOf : Event → Option Args
  | Event.verifyCall ctx _ => some ctx
  | Event.verifyRaise ctx _ => some ctx
  | _ => none

/-- An executor dispatch is justified by the event right before it: a
policy-client call that returned `allow = true`, whose context was built
from the very same `current_args` whose passport-attached copy is being
dispatched. -/
def okPair (agent tool : String) (prev next : Event) : Prop :=
  ∀ a, execArgsOf next = some a →
    ∃ cur d, prev = Event.verifyCall (build_policy_context agent tool cur) d ∧
      d.allow = true ∧ a = dictSet cur "agent_id" (Value.vStr agent)

/-- The first event of the trace is not an executor dispatch. -/
def headNotExec (l : List Event) : Prop := ∀ ev ∈ l.head?, execArgsOf ev = none

/-- Every executor dispatch in the trace is immediately preceded by an
allowing policy verification on the same current arguments. -/
def GuardedEvents (agent tool : String) (l : List Event) : Prop :=
  headNotExec l ∧ List.Chain' (okPair agent tool) l

/-- The `current_args` contents recorded at the start of each attempt. -/
def attemptArgsList (l : List Event) : List Args :=
  l.filterMap fun ev =>
    match ev with
    | Event.attemptStart _ _ c => some c
    | _ => none

/-- How the arguments of one attempt relate to the next attempt of the same
invocation: unchanged (a generic-error retry) or rewritten by the denial
adjustment rule. -/
def retryStepRel (tool : String) (c c' : Args) : Prop :=
  c' = c ∨ adjustArgsForRetry tool c = Except.ok c'

/-- What any event produced inside one `try:` body looks like: never an
attempt marker or a sleep; verification events carry the context built
from the attempt's `current_args`; executor events carry that same
`current_args` with the gateway identity attached. -/
def attemptEventOK (agent tool : String) (cur : Args) : Event → Prop
  | Event.attemptStart _ _ _ => False
  | Event.sleepEvent _ _ => False
  | Event.verifyCall ctx _ => ctx = build_policy_context agent tool cur
  | Event.verifyRaise ctx _ => ctx = build_policy_context agent tool cur
  | Event.executeCall a _ => a = dictSet cur "agent_id" (Value.vStr agent)
  | Event.executeRaise a _ => a = dictSet cur "agent_id" (Value.vStr agent)

/-! ## Dictionary lemmas -/

theorem dictGet_dictSet_self (d : Args) (k : String) (v : Value) :
    dictGet (dictSet d k v) k = some v := by
  induction d with
  | nil => simp [dictGet, dictSet, assocGet]
  | cons kv t ih =>
      obtain ⟨k', v'⟩ := kv
      by_cases h : k' = k
      · simp [dictGet, dictSet, assocGet, h]
      · simpa [dictGet, dictSet, assocGet, h] using ih

theorem dictGet_dictSet_ne (d : Args) (k : String) (v : Value) (k' : String) (h : k' ≠ k) :
    dictGet (dictSet d k v) k' = dictGet d k' := by
  have h' : k ≠ k' := Ne.symm h
  induction d with
  | nil => simp [dictGet, dictSet, assocGet, h']
  | cons kv t ih =>
      obtain ⟨k₀, v₀⟩ := kv
      by_cases h₀ : k₀ = k
      · subst h₀
        simp [dictGet, dictSet, assocGet, h']
      · simp only [dictGet, dictSet, assocGet, if_neg h₀]
        by_cases h₁ : k₀ = k'
        · simp [assocGet, h₁]
        · simp only [assocGet, if_neg h₁]
          exact ih

theorem assocGet_eq_none_iff (l : List (String × Value)) (k : String) :
    assocGet l k = none ↔ k ∉ l.map Prod.fst := by
  induction l with
  | nil => simp [assocGet]
  | cons kv t ih =>
      obtain ⟨k₀, v₀⟩ := kv
      by_cases h : k₀ = k
      · subst h; simp [assocGet]
      · have h' : k ≠ k₀ := Ne.symm h
        simp [assocGet, h, h', ih]

theorem dictSet_map_fst (d : Args) (k : String) (v : Value) :
    (dictSet d k v).map Prod.fst = if k ∈ d.map Prod.fst then d.map Prod.fst
      else d.map Prod.fst ++ [k] := by
  induction d with
  | nil => simp [dictSet]
  | cons kv t ih =>
      obtain ⟨k₀, v₀⟩ := kv
      by_cases h : k₀ = k
      · simp [dictSet, h]
      · simp only [dictSet, if_neg h, List.map_cons, ih]
        by_cases hm : k ∈ t.map Prod.fst
        · simp [hm, Ne.symm h]
        · simp [hm, Ne.symm h]

theorem dictSet_nodup (d : Args) (k : String) (v : Value)
    (h : (d.map Prod.fst).Nodup) : ((dictSet d k v).map Prod.fst).Nodup := by
  rw [dictSet_map_fst]
  by_cases hm : k ∈ d.map Prod.fst
  · simpa [hm] using h
  · rw [if_neg hm]
    simp [List.nodup_append, h, hm]

theorem dictSpread_cons (base : Args) (kv : String × Value) (t : Args) :
    dictSpread base (kv :: t) = dictSpread (dictSet base kv.1 kv.2) t := rfl

theorem dictGet_dictSpread_of_notMem (l : Args) (k : String) (h : k ∉ l.map Prod.fst) :
    ∀ base : Args, dictGet (dictSpread base l) k = dictGet base k := by
  induction l with
  | nil => intro base; rfl
  | cons kv t ih =>
      intro base
      obtain ⟨k₀, v₀⟩ := kv
      simp only [List.map_cons, List.mem_cons] at h
      push_neg at h
      rw [dictSpread_cons, ih h.2, dictGet_dictSet_ne base k₀ v₀ k h.1]

theorem dictGet_dictSpread_of_get (l : Args) (k : String) (v : Value)
    (hnd : (l.map Prod.fst).Nodup) (h : dictGet l k = some v) :
    ∀ base : Args, dictGet (dictSpread base l) k = some v := by
  induction l with
  | nil => simp [dictGet, assocGet] at h
  | cons kv t ih =>
      intro base
      obtain ⟨k₀, v₀⟩ := kv
      simp only [List.map_cons, List.nodup_cons] at hnd
      by_cases hk : k₀ = k
      · subst hk
        simp only [dictGet, assocGet, if_pos rfl] at h
        obtain rfl : v₀ = v := by exact Option.some.inj h
        rw [dictSpread_cons, dictGet_dictSpread_of_notMem t k₀ hnd.1,
          dictGet_dictSet_self]
      · simp only [dictGet, assocGet, if_neg hk] at h
        rw [dictSpread_cons]
        exact ih hnd.2 h (dictSet base k₀ v₀)

/-! ## Context-builder lemmas -/

theorem bpc_preserves_get (agent tool : String) (args : Args) (k : String) (v : Value)
    (hnd : (args.map Prod.fst).Nodup) (h : dictGet args k = some v) :
    dictGet (build_policy_context agent tool args) k = some v := by
  have hctx : dictGet (dictSpread [("agent_id", Value.vStr agent)] args) k = some v :=
    dictGet_dictSpread_of_get args k v hnd h _
  simp only [build_policy_context]
  by_cases ht : tool = "merge_pull_request"
  · rw [if_pos ht]
    by_cases hb : k = "base_branch"
    · subst hb
      rw [dictGet_dictSet_ne _ _ _ _ (by decide), dictGet_dictSet_self, h]
      rfl
    · by_cases hp : k = "pr_size_kb"
      · subst hp
        rw [dictGet_dictSet_self, h]
        rfl
      · rw [dictGet_dictSet_ne _ _ _ _ hp, dictGet_dictSet_ne _ _ _ _ hb]
        exact hctx
  · rw [if_neg ht]
    by_cases ht2 : tool = "process_refund"
    · rw [if_pos ht2]
      by_cases hr : k = "reason_code"
      · subst hr
        rw [dictGet_dictSet_self, h]
        rfl
      · rw [dictGet_dictSet_ne _ _ _ _ hr]
        exact hctx
    · rw [if_neg ht2]
      exact hctx

theorem bpc_agent_id_default (agent tool : String) (args : Args)
    (h : dictGet args "agent_id" = none) :
    dictGet (build_policy_context agent tool args) "agent_id" = some (Value.vStr agent) := by
  have hmem : "agent_id" ∉ args.map Prod.fst := (assocGet_eq_none_iff args "agent_id").mp h
  have hctx : dictGet (dictSpread [("agent_id", Value.vStr agent)] args) "agent_id"
      = some (Value.vStr agent) := by
    rw [dictGet_dictSpread_of_notMem args "agent_id" hmem]
    rfl
  simp only [build_policy_context]
  by_cases ht : tool = "merge_pull_request"
  · rw [if_pos ht, dictGet_dictSet_ne _ _ _ _ (by decide), dictGet_dictSet_ne _ _ _ _ (by decide)]
    exact hctx
  · rw [if_neg ht]
    by_cases ht2 : tool = "process_refund"
    · rw [if_pos ht2, dictGet_dictSet_ne _ _ _ _ (by decide)]
      exact hctx
    · rw [if_neg ht2]
      exact hctx

theorem bpc_base_branch_default (agent : String) (args : Args)
    (h : dictGet args "base_branch" = none) :
    dictGet (build_policy_context agent "merge_pull_request" args) "base_branch"
      = some (Value.vStr "main") := by
  simp only [build_policy_context, eq_self_iff_true, if_true]
  rw [dictGet_dictSet_ne _ _ _ _ (by decide), dictGet_dictSet_self, h]
  rfl

theorem bpc_pr_size_default (agent : String) (args : Args)
    (h : dictGet args "pr_size_kb" = none) :
    dictGet (build_policy_context agent "merge_pull_request" args) "pr_size_kb"
      = some (Value.vInt 250) := by
  simp only [build_policy_context, eq_self_iff_true, if_true]
  rw [dictGet_dictSet_self, h]
  rfl

theorem bpc_reason_code_default (agent : String) (args : Args)
    (h : dictGet args "reason_code" = none) :
    dictGet (build_policy_context agent "process_refund" args) "reason_code"
      = some (Value.vStr "customer_request") := by
  simp only [build_policy_context, eq_self_iff_true, if_true]
  rw [if_neg (by decide), dictGet_dictSet_self, h]
  rfl

/-! ## Halving and adjustment lemmas -/

theorem pyHalfInt_lt (n : Int) (h : 0 < n) : pyHalfInt n < n := by
  unfold pyHalfInt
  rw [if_pos (le_of_lt h)]
  have h1 : n.toNat / 2 < n.toNat := Nat.div_lt_self (by omega) (by omega)
  omega

theorem pyHalfInt_nonneg (n : Int) (h : 0 ≤ n) : 0 ≤ pyHalfInt n := by
  unfold pyHalfInt
  rw [if_pos h]
  exact Int.ofNat_nonneg _

theorem adjustArgsForRetry_refund (cur : Args) (n : Int)
    (h : dictGet cur "amount" = some (Value.vInt n)) :
    adjustArgsForRetry "process_refund" cur
      = Except.ok (dictSet cur "amount" (Value.vInt (pyHalfInt n))) := by
  simp [adjustArgsForRetry, h, adjustArgValue, Except.map]

theorem adjustArgsForRetry_export (cur : Args) (n : Int)
    (h : dictGet cur "limit" = some (Value.vInt n)) :
    adjustArgsForRetry "export_customer_data" cur
      = Except.ok (dictSet cur "limit" (Value.vInt (pyHalfInt n))) := by
  simp [adjustArgsForRetry, h, adjustArgValue, Except.map]

theorem adjustArgsForRetry_cases (tool : String) (cur cur' : Args)
    (h : adjustArgsForRetry tool cur = Except.ok cur') :
    cur' = cur ∨ ∃ v, cur' = dictSet cur "amount" v ∨ cur' = dictSet cur "limit" v := by
  unfold adjustArgsForRetry at h
  split at h
  · split at h
    next v heq =>
      cases v <;> simp [adjustArgValue, Except.map] at h
      · exact Or.inr ⟨_, Or.inl h.symm⟩
      · exact Or.inr ⟨_, Or.inl h.symm⟩
    next => exact Or.inl (Except.ok.inj h).symm
  · split at h
    · split at h
      next v heq =>
        cases v <;> simp [adjustArgValue, Except.map] at h
        · exact Or.inr ⟨_, Or.inr h.symm⟩
        · exact Or.inr ⟨_, Or.inr h.symm⟩
      next => exact Or.inl (Except.ok.inj h).symm
    · exact Or.inl (Except.ok.inj h).symm

theorem adjustArgsForRetry_preserves_key (tool : String) (cur cur' : Args) (k : String)
    (hk1 : k ≠ "amount") (hk2 : k ≠ "limit")
    (h : adjustArgsForRetry tool cur = Except.ok cur') :
    dictGet cur' k = dictGet cur k := by
  rcases adjustArgsForRetry_cases tool cur cur' h with rfl | ⟨v, rfl | rfl⟩
  · rfl
  · exact dictGet_dictSet_ne cur "amount" v k hk1
  · exact dictGet_dictSet_ne cur "limit" v k hk2

theorem adjustArgsForRetry_nodup (tool : String) (cur cur' : Args)
    (hnd : (cur.map Prod.fst).Nodup)
    (h : adjustArgsForRetry tool cur = Except.ok cur') :
    (cur'.map Prod.fst).Nodup := by
  rcases adjustArgsForRetry_cases tool cur cur' h with rfl | ⟨v, rfl | rfl⟩
  · exact hnd
  · exact dictSet_nodup cur "amount" v hnd
  · exact dictSet_nodup cur "limit" v hnd

/-! ## Per-attempt trace lemmas -/

theorem okPair_of_not_exec (agent tool : String) (x y : Event) (h : execArgsOf y = none) :
    okPair agent tool x y := by
  intro a ha
  rw [h] at ha
  exact Option.noConfusion ha

theorem runExecute_mem (agent tool : String) (exec : ToolExecutor) (connected : Bool)
    (cur : Args) (eIdx : Nat) :
    ∀ ev ∈ (runExecute agent exec connected cur eIdx).events,
      attemptEventOK agent tool cur ev := by
  intro ev hev
  simp only [runExecute] at hev
  split at hev
  · simp at hev
  · split at hev <;>
      [skip; split at hev] <;>
      simp_all [attemptEventOK]

theorem runAttempt_mem (agent tool : String) (skipVer : Bool) (client : PolicyClient)
    (exec : ToolExecutor) (connected : Bool) (cur : Args) (vIdx eIdx : Nat) :
    ∀ ev ∈ (runAttempt agent tool skipVer client exec connected cur vIdx eIdx).events,
      attemptEventOK agent tool cur ev := by
  intro ev hev
  simp only [runAttempt] at hev
  split at hev
  · exact runExecute_mem agent tool exec connected cur eIdx ev hev
  · split at hev
    · simp at hev
    · split at hev
      · simp at hev
        subst hev
        simp [attemptEventOK]
      · split at hev
        · simp only [List.mem_cons] at hev
          rcases hev with rfl | hev
          · simp [attemptEventOK]
          · exact runExecute_mem agent tool exec connected cur eIdx ev hev
        · simp at hev
          subst hev
          simp [attemptEventOK]

theorem runExecute_events_cases (agent : String) (exec : ToolExecutor) (connected : Bool)
    (cur : Args) (eIdx : Nat) :
    (runExecute agent exec connected cur eIdx).events = [] ∨
    ∃ ev, (runExecute agent exec connected cur eIdx).events = [ev] ∧
      execArgsOf ev = some (dictSet cur "agent_id" (Value.vStr agent)) := by
  simp only [runExecute]
  split
  · exact Or.inl rfl
  · split
    · exact Or.inr ⟨_, rfl, rfl⟩
    · split
      · exact Or.inr ⟨_, rfl, rfl⟩
      · exact Or.inr ⟨_, rfl, rfl⟩

theorem runAttempt_chain (agent tool : String) (client : PolicyClient) (exec : ToolExecutor)
    (connected : Bool) (cur : Args) (vIdx eIdx : Nat) (x : Event) :
    List.Chain' (okPair agent tool)
      (x :: (runAttempt agent tool false client exec connected cur vIdx eIdx).events) := by
  simp only [runAttempt]
  split
  next hskip => exact absurd hskip (by simp)
  next =>
    split
    · exact List.chain'_singleton x
    · split
      · refine List.chain'_cons.mpr ⟨okPair_of_not_exec agent tool _ _ rfl, ?_⟩
        exact List.chain'_singleton _
      · split
        next d hd hallow =>
          rcases runExecute_events_cases agent exec connected cur eIdx with hre | ⟨ev, hre, hex⟩
          · rw [hre]
            refine List.chain'_cons.mpr ⟨okPair_of_not_exec agent tool _ _ rfl, ?_⟩
            exact List.chain'_singleton _
          · rw [hre]
            refine List.chain'_cons.mpr ⟨okPair_of_not_exec agent tool _ _ rfl, ?_⟩
            refine List.chain'_cons.mpr ⟨?_, List.chain'_singleton _⟩
            intro a ha
            rw [hex] at ha
            exact ⟨cur, d, rfl, hallow, (Option.some.inj ha).symm⟩
        next =>
          refine List.chain'_cons.mpr ⟨okPair_of_not_exec agent tool _ _ rfl, ?_⟩
          exact List.chain'_singleton _

/-! ## Handler lemmas -/

theorem denialHandler_retry (cfg : CallConfig) (tool : String) (attempt : Nat) (cur : Args)
    (err : PyErr) (cur' : Args) (delay : ℚ)
    (h : denialHandler cfg tool attempt cur err = HandlerStep.retry cur' delay) :
    adjustArgsForRetry tool cur = Except.ok cur' ∧
      delay = cfg.retry_backoff * ((attempt : ℚ) + 1) ∧
      cfg.retry_on_denial = true ∧ attempt < cfg.max_retries - 1 := by
  unfold denialHandler at h
  split at h
  next hc =>
    split at h
    · exact HandlerStep.noConfusion h
    next cur₀ hadj =>
      obtain ⟨rfl, rfl⟩ : cur₀ = cur' ∧ cfg.retry_backoff * ((attempt : ℚ) + 1) = delay := by
        exact ⟨congrArg (fun s => match s with | HandlerStep.retry c _ => c | _ => cur₀) h,
               congrArg (fun s => match s with | HandlerStep.retry _ q => q | _ => 0) h⟩
      exact ⟨hadj, rfl, hc.1, hc.2⟩
  next => exact HandlerStep.noConfusion h

theorem genericHandler_retry (cfg : CallConfig) (attempt : Nat) (cur : Args) (err : PyErr)
    (cur' : Args) (delay : ℚ)
    (h : genericHandler cfg attempt cur err = HandlerStep.retry cur' delay) :
    cur' = cur ∧ delay = cfg.retry_backoff * ((attempt : ℚ) + 1) ∧
      attempt < cfg.max_retries - 1 := by
  unfold genericHandler at h
  split at h
  next hc =>
    refine ⟨?_, ?_, hc⟩
    · exact (congrArg (fun s => match s with | HandlerStep.retry c _ => c | _ => cur) h).symm
    · exact (congrArg (fun s => match s with | HandlerStep.retry _ q => q | _ => 0) h).symm
  next => exact HandlerStep.noConfusion h

/-! ## Loop-level invariants -/

theorem guarded_cons_append (agent tool : String) (x : Event) (A T : List Event)
    (hx : execArgsOf x = none)
    (hA : List.Chain' (okPair agent tool) (x :: A))
    (hT : List.Chain' (okPair agent tool) T)
    (hTh : headNotExec T) :
    GuardedEvents agent tool (x :: A ++ T) := by
  constructor
  · intro ev hev
    have hx' : (x :: A ++ T).head? = some x := rfl
    rw [Option.mem_def, hx'] at hev
    obtain rfl : x = ev := Option.some.inj hev
    exact hx
  · rw [show x :: A ++ T = (x :: A) ++ T from rfl]
    refine List.chain'_append.mpr ⟨hA, hT, ?_⟩
    intro a _ b hb
    exact okPair_of_not_exec agent tool a b (hTh b hb)

theorem headNotExec_nil : headNotExec [] := by
  intro ev hev
  simp at hev

theorem callToolGo_zero_events (agent tool : String) (cfg : CallConfig) (client : PolicyClient)
    (exec : ToolExecutor) (connected : Bool) (attempt : Nat) (cur : Args)
    (addr vIdx eIdx : Nat) (lastErr : Option PyErr) :
    (callToolGo agent tool cfg client exec connected 0 attempt cur addr vIdx eIdx lastErr).events
      = [] := rfl

/-- The trace of one unrolling of the retry loop: the attempt marker, the
events of the `try:` body, then either nothing (the attempt returned or a
handler re-raised) or a backoff sleep of `retry_backoff * (attempt + 1)`
followed by the next attempt on arguments related by `retryStepRel`. -/
theorem callToolGo_succ_shape (agent tool : String) (cfg : CallConfig) (client : PolicyClient)
    (exec : ToolExecutor) (connected : Bool) (r attempt : Nat) (cur : Args)
    (addr vIdx eIdx : Nat) (lastErr : Option PyErr) :
    ∃ T, (callToolGo agent tool cfg client exec connected (r + 1) attempt cur addr vIdx eIdx
        lastErr).events
        = Event.attemptStart attempt addr cur ::
            (runAttempt agent tool cfg.skip_verification client exec connected cur vIdx
              eIdx).events ++ T ∧
      (T = [] ∨
        ∃ (cur' : Args) (q : ℚ) (le' : Option PyErr),
          T = Event.sleepEvent attempt q ::
            (callToolGo agent tool cfg client exec connected r (attempt + 1) cur' addr
              (runAttempt agent tool cfg.skip_verification client exec connected cur vIdx
                eIdx).vIdx
              (runAttempt agent tool cfg.skip_verification client exec connected cur vIdx
                eIdx).eIdx le').events ∧
          q = cfg.retry_backoff * ((attempt : ℚ) + 1) ∧
          retryStepRel tool cur cur') := by
  cases hout : (runAttempt agent tool cfg.skip_verification client exec connected cur vIdx
      eIdx).out with
  | ok res => exact ⟨[], by simp [callToolGo, hout], Or.inl rfl⟩
  | error err =>
      cases err with
      | policyDenied m p =>
          cases hh : denialHandler cfg tool attempt cur (PyErr.policyDenied m p) with
          | stop e2 => exact ⟨[], by simp [callToolGo, hout, hh], Or.inl rfl⟩
          | retry cur' delay =>
              obtain ⟨hadj, hdel, -, -⟩ :=
                denialHandler_retry cfg tool attempt cur _ cur' delay hh
              exact ⟨_, by simp [callToolGo, hout, hh],
                Or.inr ⟨cur', delay, some (PyErr.policyDenied m p), rfl, hdel,
                  Or.inr hadj⟩⟩
      | valueError m =>
          cases hh : genericHandler cfg attempt cur (PyErr.valueError m) with
          | stop e2 => exact ⟨[], by simp [callToolGo, hout, hh], Or.inl rfl⟩
          | retry cur' delay =>
              obtain ⟨hcc, hdel, -⟩ := genericHandler_retry cfg attempt cur _ cur' delay hh
              exact ⟨_, by simp [callToolGo, hout, hh],
                Or.inr ⟨cur', delay, some (PyErr.valueError m), rfl, hdel, Or.inl hcc⟩⟩
      | runtimeError m =>
          cases hh : genericHandler cfg attempt cur (PyErr.runtimeError m) with
          | stop e2 => exact ⟨[], by simp [callToolGo, hout, hh], Or.inl rfl⟩
          | retry cur' delay =>
              obtain ⟨hcc, hdel, -⟩ := genericHandler_retry cfg attempt cur _ cur' delay hh
              exact ⟨_, by simp [callToolGo, hout, hh],
                Or.inr ⟨cur', delay, some (PyErr.runtimeError m), rfl, hdel, Or.inl hcc⟩⟩
      | typeError m =>
          cases hh : genericHandler cfg attempt cur (PyErr.typeError m) with
          | stop e2 => exact ⟨[], by simp [callToolGo, hout, hh], Or.inl rfl⟩
          | retry cur' delay =>
              obtain ⟨hcc, hdel, -⟩ := genericHandler_retry cfg attempt cur _ cur' delay hh
              exact ⟨_, by simp [callToolGo, hout, hh],
                Or.inr ⟨cur', delay, some (PyErr.typeError m), rfl, hdel, Or.inl hcc⟩⟩
      | generic m =>
          cases hh : genericHandler cfg attempt cur (PyErr.generic m) with
          | stop e2 => exact ⟨[], by simp [callToolGo, hout, hh], Or.inl rfl⟩
          | retry cur' delay =>
              obtain ⟨hcc, hdel, -⟩ := genericHandler_retry cfg attempt cur _ cur' delay hh
              exact ⟨_, by simp [callToolGo, hout, hh],
                Or.inr ⟨cur', delay, some (PyErr.generic m), rfl, hdel, Or.inl hcc⟩⟩

theorem headNotExec_sleep (i : Nat) (q : ℚ) (L : List Event) :
    headNotExec (Event.sleepEvent i q :: L) := by
  intro ev hev
  simp only [List.head?_cons, Option.mem_def, Option.some.injEq] at hev
  rw [← hev]
  rfl

theorem chain_sleep_cons (agent tool : String) (i : Nat) (q : ℚ) (L : List Event)
    (hG : GuardedEvents agent tool L) :
    List.Chain' (okPair agent tool) (Event.sleepEvent i q :: L) := by
  refine List.chain'_cons'.mpr ⟨?_, hG.2⟩
  intro y hy
  exact okPair_of_not_exec agent tool _ y (hG.1 y hy)

theorem callToolGo_guarded (agent tool : String) (cfg : CallConfig) (client : PolicyClient)
    (exec : ToolExecutor) (connected : Bool) (hskip : cfg.skip_verification = false) :
    ∀ (r attempt : Nat) (cur : Args) (addr vIdx eIdx : Nat) (lastErr : Option PyErr),
      GuardedEvents agent tool
        (callToolGo agent tool cfg client exec connected r attempt cur addr vIdx eIdx
          lastErr).events := by
  intro r
  induction r with
  | zero =>
      intro attempt cur addr vIdx eIdx lastErr
      rw [callToolGo_zero_events]
      exact ⟨headNotExec_nil, List.chain'_nil⟩
  | succ r ih =>
      intro attempt cur addr vIdx eIdx lastErr
      obtain ⟨T, hev, hT⟩ := callToolGo_succ_shape agent tool cfg client exec connected r
        attempt cur addr vIdx eIdx lastErr
      rw [hskip] at hev
      have hA := runAttempt_chain agent tool client exec connected cur vIdx eIdx
        (Event.attemptStart attempt addr cur)
      rcases hT with rfl | ⟨cur', q, le', rfl, -, -⟩
      · rw [hev]
        exact guarded_cons_append agent tool _ _ _ rfl hA List.chain'_nil headNotExec_nil
      · rw [hev]
        rw [hskip]
        have hrec := ih (attempt + 1) cur' addr
          (runAttempt agent tool false client exec connected cur vIdx eIdx).vIdx
          (runAttempt agent tool false client exec connected cur vIdx eIdx).eIdx le'
        exact guarded_cons_append agent tool _ _ _ rfl hA
          (chain_sleep_cons agent tool attempt q _ hrec)
          (headNotExec_sleep attempt q _)

theorem attemptArgsList_nil : attemptArgsList [] = [] := rfl

theorem attemptArgsList_cons_start (i a : Nat) (c : Args) (l : List Event) :
    attemptArgsList (Event.attemptStart i a c :: l) = c :: attemptArgsList l := by
  simp [attemptArgsList]

theorem attemptArgsList_cons_sleep (i : Nat) (q : ℚ) (l : List Event) :
    attemptArgsList (Event.sleepEvent i q :: l) = attemptArgsList l := by
  simp [attemptArgsList]

theorem attemptArgsList_append (l₁ l₂ : List Event) :
    attemptArgsList (l₁ ++ l₂) = attemptArgsList l₁ ++ attemptArgsList l₂ := by
  simp [attemptArgsList]

theorem attemptArgsList_nil_of_ok (agent tool : String) (cur : Args) (l : List Event)
    (h : ∀ ev ∈ l, attemptEventOK agent tool cur ev) : attemptArgsList l = [] := by
  rw [attemptArgsList, List.filterMap_eq_nil_iff]
  intro ev hev
  have h2 := h ev hev
  cases ev <;> simp_all [attemptEventOK]

/-- The backoff schedule: every sleep recorded at attempt index `i` lasts
`retry_backoff * (i + 1)` seconds. -/
theorem callToolGo_sleep_linear (agent tool : String) (cfg : CallConfig)
    (client : PolicyClient) (exec : ToolExecutor) (connected : Bool) :
    ∀ (r attempt : Nat) (cur : Args) (addr vIdx eIdx : Nat) (lastErr : Option PyErr),
      ∀ ev ∈ (callToolGo agent tool cfg client exec connected r attempt cur addr vIdx eIdx
          lastErr).events,
        ∀ i q, ev = Event.sleepEvent i q → q = cfg.retry_backoff * ((i : ℚ) + 1) := by
  intro r
  induction r with
  | zero =>
      intro attempt cur addr vIdx eIdx lastErr ev hev
      rw [callToolGo_zero_events] at hev
      simp at hev
  | succ r ih =>
      intro attempt cur addr vIdx eIdx lastErr ev hev
      obtain ⟨T, hevE, hT⟩ := callToolGo_succ_shape agent tool cfg client exec connected r
        attempt cur addr vIdx eIdx lastErr
      rw [hevE] at hev
      rcases List.mem_cons.mp hev with rfl | hev
      · intro i q h
        exact Event.noConfusion h
      rcases List.mem_append.mp hev with hev | hev
      · intro i q h
        subst h
        have h2 := runAttempt_mem agent tool cfg.skip_verification client exec connected cur
          vIdx eIdx _ hev
        simp [attemptEventOK] at h2
      · rcases hT with rfl | ⟨cur', q0, le', rfl, hq0, -⟩
        · simp at hev
        · rcases List.mem_cons.mp hev with rfl | hev
          · intro i q h
            injection h with h1 h2
            subst h1
            subst h2
            exact hq0
          · exact ih (attempt + 1) cur' addr _ _ le' ev hev

/-- Attempt count and attempt-argument evolution: at most `r` attempts run,
the first runs on `cur`, and consecutive attempts are related by
`retryStepRel`. -/
theorem callToolGo_attemptArgs (agent tool : String) (cfg : CallConfig)
    (client : PolicyClient) (exec : ToolExecutor) (connected : Bool) :
    ∀ (r attempt : Nat) (cur : Args) (addr vIdx eIdx : Nat) (lastErr : Option PyErr),
      (attemptArgsList (callToolGo agent tool cfg client exec connected r attempt cur addr
          vIdx eIdx lastErr).events).length ≤ r ∧
      (∀ c ∈ (attemptArgsList (callToolGo agent tool cfg client exec connected r attempt cur
          addr vIdx eIdx lastErr).events).head?, c = cur) ∧
      List.Chain' (retryStepRel tool)
        (attemptArgsList (callToolGo agent tool cfg client exec connected r attempt cur addr
          vIdx eIdx lastErr).events) := by
  intro r
  induction r with
  | zero =>
      intro attempt cur addr vIdx eIdx lastErr
      rw [callToolGo_zero_events]
      simp [attemptArgsList]
  | succ r ih =>
      intro attempt cur addr vIdx eIdx lastErr
      obtain ⟨T, hevE, hT⟩ := callToolGo_succ_shape agent tool cfg client exec connected r
        attempt cur addr vIdx eIdx lastErr
      rw [hevE, attemptArgsList_append, attemptArgsList_cons_start,
        attemptArgsList_nil_of_ok agent tool cur _
          (runAttempt_mem agent tool cfg.skip_verification client exec connected cur vIdx eIdx),
        List.singleton_append]
      rcases hT with rfl | ⟨cur', q0, le', rfl, -, hrel⟩
      · refine ⟨by simp [attemptArgsList], by simp, ?_⟩
        simp [attemptArgsList]
      · rw [attemptArgsList_cons_sleep]
        obtain ⟨hlen, hhead, hchain⟩ := ih (attempt + 1) cur' addr
          (runAttempt agent tool cfg.skip_verification client exec connected cur vIdx eIdx).vIdx
          (runAttempt agent tool cfg.skip_verification client exec connected cur vIdx eIdx).eIdx
          le'
        refine ⟨by simpa using Nat.succ_le_succ hlen, by simp, ?_⟩
        refine List.chain'_cons'.mpr ⟨?_, hchain⟩
        intro c hc
        rw [hhead c hc]
        exact hrel

/-- Every attempt marker of a run carries the address the loop was started
with: `current_args` is one dict object, mutated in place. -/
theorem callToolGo_addr (agent tool : String) (cfg : CallConfig)
    (client : PolicyClient) (exec : ToolExecutor) (connected : Bool) :
    ∀ (r attempt : Nat) (cur : Args) (addr vIdx eIdx : Nat) (lastErr : Option PyErr),
      ∀ ev ∈ (callToolGo agent tool cfg client exec connected r attempt cur addr vIdx eIdx
          lastErr).events,
        ∀ i a c, ev = Event.attemptStart i a c → a = addr := by
  intro r
  induction r with
  | zero =>
      intro attempt cur addr vIdx eIdx lastErr ev hev
      rw [callToolGo_zero_events] at hev
      simp at hev
  | succ r ih =>
      intro attempt cur addr vIdx eIdx lastErr ev hev
      obtain ⟨T, hevE, hT⟩ := callToolGo_succ_shape agent tool cfg client exec connected r
        attempt cur addr vIdx eIdx lastErr
      rw [hevE] at hev
      rcases List.mem_cons.mp hev with rfl | hev
      · intro i a c h
        injection h with h1 h2 h3
        exact h2.symm
      rcases List.mem_append.mp hev with hev | hev
      · intro i a c h
        subst h
        have h2 := runAttempt_mem agent tool cfg.skip_verification client exec connected cur
          vIdx eIdx _ hev
        simp [attemptEventOK] at h2
      · rcases hT with rfl | ⟨cur', q0, le', rfl, -, -⟩
        · simp at hev
        · rcases List.mem_cons.mp hev with rfl | hev
          · intro i a c h
            exact Event.noConfusion h
          · exact ih (attempt + 1) cur' addr _ _ le' ev hev

theorem attemptEventOK_identities (agent tool : String) (cur : Args) (w : Value)
    (hw : dictGet cur "agent_id" = some w) (hnd : (cur.map Prod.fst).Nodup) (ev : Event)
    (h : attemptEventOK agent tool cur ev) :
    (∀ ctx, ctxOf ev = some ctx → dictGet ctx "agent_id" = some w) ∧
    (∀ a, execArgsOf ev = some a → dictGet a "agent_id" = some (Value.vStr agent)) := by
  cases ev with
  | attemptStart i a c =>
      exact ⟨fun _ hc => Option.noConfusion hc, fun _ hc => Option.noConfusion hc⟩
  | sleepEvent i q =>
      exact ⟨fun _ hc => Option.noConfusion hc, fun _ hc => Option.noConfusion hc⟩
  | verifyCall ctx d =>
      refine ⟨?_, fun _ hc => Option.noConfusion hc⟩
      intro ctx0 hc
      obtain rfl := Option.some.inj hc
      rw [(h : ctx = build_policy_context agent tool cur)]
      exact bpc_preserves_get agent tool cur "agent_id" w hnd hw
  | verifyRaise ctx e =>
      refine ⟨?_, fun _ hc => Option.noConfusion hc⟩
      intro ctx0 hc
      obtain rfl := Option.some.inj hc
      rw [(h : ctx = build_policy_context agent tool cur)]
      exact bpc_preserves_get agent tool cur "agent_id" w hnd hw
  | executeCall a r =>
      refine ⟨fun _ hc => Option.noConfusion hc, ?_⟩
      intro a0 hc
      obtain rfl := Option.some.inj hc
      rw [(h : a = dictSet cur "agent_id" (Value.vStr agent))]
      exact dictGet_dictSet_self cur "agent_id" (Value.vStr agent)
  | executeRaise a e =>
      refine ⟨fun _ hc => Option.noConfusion hc, ?_⟩
      intro a0 hc
      obtain rfl := Option.some.inj hc
      rw [(h : a = dictSet cur "agent_id" (Value.vStr agent))]
      exact dictGet_dictSet_self cur "agent_id" (Value.vStr agent)

/-- Identity separation: when the caller supplies `agent_id`, every policy
context of the run carries the caller-supplied value, while every executor
dispatch carries the gateway identity. -/
theorem callToolGo_identities (agent tool : String) (cfg : CallConfig)
    (client : PolicyClient) (exec : ToolExecutor) (connected : Bool) (w : Value) :
    ∀ (r attempt : Nat) (cur : Args) (addr vIdx eIdx : Nat) (lastErr : Option PyErr),
      dictGet cur "agent_id" = some w → (cur.map Prod.fst).Nodup →
      ∀ ev ∈ (callToolGo agent tool cfg client exec connected r attempt cur addr vIdx eIdx
          lastErr).events,
        (∀ ctx, ctxOf ev = some ctx → dictGet ctx "agent_id" = some w) ∧
        (∀ a, execArgsOf ev = some a → dictGet a "agent_id" = some (Value.vStr agent)) := by
  intro r
  induction r with
  | zero =>
      intro attempt cur addr vIdx eIdx lastErr hw hnd ev hev
      rw [callToolGo_zero_events] at hev
      simp at hev
  | succ r ih =>
      intro attempt cur addr vIdx eIdx lastErr hw hnd ev hev
      obtain ⟨T, hevE, hT⟩ := callToolGo_succ_shape agent tool cfg client exec connected r
        attempt cur addr vIdx eIdx lastErr
      rw [hevE] at hev
      rcases List.mem_cons.mp hev with rfl | hev
      · exact ⟨fun _ hc => Option.noConfusion hc, fun _ hc => Option.noConfusion hc⟩
      rcases List.mem_append.mp hev with hev | hev
      · exact attemptEventOK_identities agent tool cur w hw hnd ev
          (runAttempt_mem agent tool cfg.skip_verification client exec connected cur vIdx eIdx
            ev hev)
      · rcases hT with rfl | ⟨cur', q0, le', rfl, -, hrel⟩
        · simp at hev
        · rcases List.mem_cons.mp hev with rfl | hev
          · exact ⟨fun _ hc => Option.noConfusion hc, fun _ hc => Option.noConfusion hc⟩
          · have hw' : dictGet cur' "agent_id" = some w := by
              rcases hrel with rfl | hadj
              · exact hw
              · rw [adjustArgsForRetry_preserves_key tool cur cur' "agent_id"
                  (by decide) (by decide) hadj]
                exact hw
            have hnd' : (cur'.map Prod.fst).Nodup := by
              rcases hrel with rfl | hadj
              · exact hnd
              · exact adjustArgsForRetry_nodup tool cur cur' hnd hadj
            exact ih (attempt + 1) cur' addr _ _ le' hw' hnd' ev hev

/-! ## Specialized attempt characterizations -/

/-- With verification on and an unmapped tool name, the `try:` body raises
the `ValueError` before any policy-client or executor call. -/
theorem runAttempt_unmapped (agent tool : String) (skipVer : Bool) (client : PolicyClient)
    (exec : ToolExecutor) (connected : Bool) (cur : Args) (vIdx eIdx : Nat)
    (hskip : skipVer = false) (hmap : assocGet tool_to_policy_map tool = none) :
    runAttempt agent tool skipVer client exec connected cur vIdx eIdx =
      ⟨[], vIdx, eIdx, Except.error (PyErr.valueError (unmappedToolMessage tool))⟩ := by
  subst hskip
  simp [runAttempt, get_policy_id_for_tool, hmap]

/-- With verification on, a mapped tool, and a denying client response, the
`try:` body performs one verification and raises `PolicyDeniedError`. -/
theorem runAttempt_denied (agent tool : String) (client : PolicyClient) (exec : ToolExecutor)
    (connected : Bool) (cur : Args) (vIdx eIdx : Nat) (pid : String) (dec : Decision)
    (hpid : get_policy_id_for_tool tool = Except.ok pid)
    (hclient : client vIdx (build_policy_context agent tool cur) = ClientResp.decision dec)
    (hdeny : dec.allow = false) :
    runAttempt agent tool false client exec connected cur vIdx eIdx =
      ⟨[Event.verifyCall (build_policy_context agent tool cur) dec], vIdx + 1, eIdx,
       Except.error (PyErr.policyDenied (denialMessage dec)
         (DenialPayload.fromDecision dec))⟩ := by
  simp [runAttempt, hpid, hclient, hdeny]

/-- With verification on, an allowing client response, and an executor
result whose content carries the server-side denial marker, the `try:`
body performs one verification, one dispatch, and raises
`PolicyDeniedError` with the marked text and the raw result. -/
theorem runAttempt_marker (agent tool : String) (client : PolicyClient) (exec : ToolExecutor)
    (cur : Args) (vIdx eIdx : Nat) (pid : String) (d : Decision) (res : ToolResult) (t : String)
    (hpid : get_policy_id_for_tool tool = Except.ok pid)
    (hclient : client vIdx (build_policy_context agent tool cur) = ClientResp.decision d)
    (hallow : d.allow = true)
    (hexec : exec eIdx (dictSet cur "agent_id" (Value.vStr agent)) = ExecResp.result res)
    (hmark : findDenialText res.content = some t) :
    runAttempt agent tool false client exec true cur vIdx eIdx =
      ⟨[Event.verifyCall (build_policy_context agent tool cur) d,
        Event.executeCall (dictSet cur "agent_id" (Value.vStr agent)) res],
       vIdx + 1, eIdx + 1,
       Except.error (PyErr.policyDenied t (DenialPayload.fromResult res))⟩ := by
  simp [runAttempt, runExecute, hpid, hclient, hallow, hexec, hmark]

theorem callToolGo_zero_result (agent tool : String) (cfg : CallConfig)
    (client : PolicyClient) (exec : ToolExecutor) (connected : Bool) (attempt : Nat)
    (cur : Args) (addr vIdx eIdx : Nat) (lastErr : Option PyErr) :
    (callToolGo agent tool cfg client exec connected 0 attempt cur addr vIdx eIdx
        lastErr).result
      = Except.error (lastErr.getD (PyErr.generic ("Failed to call " ++ tool ++ " after "
          ++ toString cfg.max_retries ++ " attempts"))) := rfl

/-- An unmapped tool name: every attempt raises the `ValueError` before any
collaborator call, the generic handler retries with backoff until the
attempt budget is exhausted, and the `ValueError` is finally re-raised. -/
theorem callToolGo_unmapped (agent tool : String) (cfg : CallConfig) (client : PolicyClient)
    (exec : ToolExecutor) (connected : Bool) (hskip : cfg.skip_verification = false)
    (hmap : assocGet tool_to_policy_map tool = none) :
    ∀ (r attempt : Nat) (cur : Args) (addr vIdx eIdx : Nat) (lastErr : Option PyErr),
      attempt + r = cfg.max_retries →
      (callToolGo agent tool cfg client exec connected r attempt cur addr vIdx eIdx
          lastErr).vIdx = vIdx ∧
      (callToolGo agent tool cfg client exec connected r attempt cur addr vIdx eIdx
          lastErr).eIdx = eIdx ∧
      (attemptArgsList (callToolGo agent tool cfg client exec connected r attempt cur addr
          vIdx eIdx lastErr).events).length = r ∧
      (1 ≤ r → (callToolGo agent tool cfg client exec connected r attempt cur addr vIdx eIdx
          lastErr).result = Except.error (PyErr.valueError (unmappedToolMessage tool))) := by
  intro r
  induction r with
  | zero =>
      intro attempt cur addr vIdx eIdx lastErr _
      refine ⟨rfl, rfl, ?_, ?_⟩
      · rw [callToolGo_zero_events]
        simp [attemptArgsList]
      · intro h
        exact absurd h (by omega)
  | succ r ih =>
      intro attempt cur addr vIdx eIdx lastErr hcount
      have hA := runAttempt_unmapped agent tool cfg.skip_verification client exec connected
        cur vIdx eIdx hskip hmap
      by_cases hcond : attempt < cfg.max_retries - 1
      · have hH : genericHandler cfg attempt cur (PyErr.valueError (unmappedToolMessage tool))
            = HandlerStep.retry cur (cfg.retry_backoff * ((attempt : ℚ) + 1)) := by
          simp [genericHandler, hcond]
        obtain ⟨ih1, ih2, ih3, ih4⟩ := ih (attempt + 1) cur addr vIdx eIdx
          (some (PyErr.valueError (unmappedToolMessage tool))) (by omega)
        have hr1 : 1 ≤ r := by omega
        refine ⟨?_, ?_, ?_, ?_⟩
        · simp only [callToolGo, hA, hH]
          exact ih1
        · simp only [callToolGo, hA, hH]
          exact ih2
        · simp only [callToolGo, hA, hH]
          rw [attemptArgsList_append, attemptArgsList_cons_start, attemptArgsList_cons_sleep,
            attemptArgsList_nil, List.singleton_append, List.length_cons, ih3]
        · intro _
          simp only [callToolGo, hA, hH]
          exact ih4 hr1
      · have hH : genericHandler cfg attempt cur (PyErr.valueError (unmappedToolMessage tool))
            = HandlerStep.stop (PyErr.valueError (unmappedToolMessage tool)) := by
          simp [genericHandler, hcond]
        have hr0 : r = 0 := by omega
        subst hr0
        refine ⟨?_, ?_, ?_, ?_⟩
        · simp only [callToolGo, hA, hH]
        · simp only [callToolGo, hA, hH]
        · simp only [callToolGo, hA, hH]
          rw [attemptArgsList_append, attemptArgsList_cons_start, attemptArgsList_nil]
          rfl
        · intro _
          simp only [callToolGo, hA, hH]

/-! ## Claims -/

/-- Claim C1: for every invocation of `call_tool` with
`skip_verification = false`, the tool executor is dispatched only right
after a policy verification in the same attempt returned `allow = true`,
and the dispatched arguments are the same current arguments used to build
the verified context (with the gateway identity attached); no executor
call happens without a preceding allow decision. -/
theorem claim_C1_executor_gated (agent tool : String) (args : Args) (cfg : CallConfig)
    (client : PolicyClient) (exec : ToolExecutor) (connected : Bool)
    (hskip : cfg.skip_verification = false) :
    GuardedEvents agent tool (callTool agent tool args cfg client exec connected).events :=
  callToolGo_guarded agent tool cfg client exec connected hskip cfg.max_retries 0 args 1 0 0
    none

/-- Witness for C1: a concrete allowed-and-executed run. -/
theorem claim_C1_witness :
    (⟨false, 1, 1, false⟩ : CallConfig).skip_verification = false ∧
    GuardedEvents "ap_gw" "process_refund"
      (callTool "ap_gw" "process_refund" [("amount", Value.vInt 5)] ⟨false, 1, 1, false⟩
        (fun _ _ => ClientResp.decision ⟨"d1", true, []⟩)
        (fun _ _ => ExecResp.result ⟨[]⟩) true).events :=
  ⟨rfl, claim_C1_executor_gated "ap_gw" "process_refund" [("amount", Value.vInt 5)]
    ⟨false, 1, 1, false⟩ (fun _ _ => ClientResp.decision ⟨"d1", true, []⟩)
    (fun _ _ => ExecResp.result ⟨[]⟩) true rfl⟩

/-- Claim C2 counterexample: for the unmapped tool name `nonexistent_tool`
(the repository's own error-handling example) with the default
configuration, `call_tool` does NOT fail on the first attempt and DOES
retry: three attempts run (the trace holds three attempt markers and the
two backoff sleeps between them).  Zero policy-client calls and zero
executor calls do occur, and the `ValueError` is raised only after the
attempt budget is exhausted. -/
theorem claim_C2_counterexample :
    attemptArgsList (callTool "ap_gw" "nonexistent_tool" [] ⟨false, 3, 1, false⟩
        (fun _ _ => ClientResp.decision ⟨"d1", true, []⟩)
        (fun _ _ => ExecResp.result ⟨[]⟩) true).events = [[], [], []] ∧
    (callTool "ap_gw" "nonexistent_tool" [] ⟨false, 3, 1, false⟩
        (fun _ _ => ClientResp.decision ⟨"d1", true, []⟩)
        (fun _ _ => ExecResp.result ⟨[]⟩) true).events.length = 5 ∧
    (callTool "ap_gw" "nonexistent_tool" [] ⟨false, 3, 1, false⟩
        (fun _ _ => ClientResp.decision ⟨"d1", true, []⟩)
        (fun _ _ => ExecResp.result ⟨[]⟩) true).verifyCalls = 0 ∧
    (callTool "ap_gw" "nonexistent_tool" [] ⟨false, 3, 1, false⟩
        (fun _ _ => ClientResp.decision ⟨"d1", true, []⟩)
        (fun _ _ => ExecResp.result ⟨[]⟩) true).execCalls = 0 ∧
    (callTool "ap_gw" "nonexistent_tool" [] ⟨false, 3, 1, false⟩
        (fun _ _ => ClientResp.decision ⟨"d1", true, []⟩)
        (fun _ _ => ExecResp.result ⟨[]⟩) true).result
      = Except.error (PyErr.valueError (unmappedToolMessage "nonexistent_tool")) :=
  ⟨rfl, rfl, rfl, rfl, rfl⟩

/-- Claim C2 amended: for every tool name absent from the tool-to-policy
mapping, with `skip_verification = false` and at least one attempt,
`call_tool` performs zero policy-client calls and zero executor calls, but
the unmapped-tool `ValueError` is caught by the generic retry handler, so
the loop runs exactly `max_retries` attempts (with backoff sleeps) before
finally raising that `ValueError`. -/
theorem claim_C2_amended (agent tool : String) (args : Args) (cfg : CallConfig)
    (client : PolicyClient) (exec : ToolExecutor) (connected : Bool)
    (hskip : cfg.skip_verification = false)
    (hmap : assocGet tool_to_policy_map tool = none)
    (hmax : 1 ≤ cfg.max_retries) :
    (callTool agent tool args cfg client exec connected).verifyCalls = 0 ∧
    (callTool agent tool args cfg client exec connected).execCalls = 0 ∧
    (attemptArgsList (callTool agent tool args cfg client exec connected).events).length
      = cfg.max_retries ∧
    (callTool agent tool args cfg client exec connected).result
      = Except.error (PyErr.valueError (unmappedToolMessage tool)) := by
  obtain ⟨h1, h2, h3, h4⟩ := callToolGo_unmapped agent tool cfg client exec connected hskip
    hmap cfg.max_retries 0 args 1 0 0 none (by omega)
  exact ⟨h1, h2, h3, h4 hmax⟩

/-- Witness for amended C2 at a concrete unmapped tool. -/
theorem claim_C2_witness :
    assocGet tool_to_policy_map "nonexistent_tool" = none ∧
    (callTool "ap_gw" "nonexistent_tool" [] ⟨true, 2, 1, false⟩
        (fun _ _ => ClientResp.decision ⟨"d1", true, []⟩)
        (fun _ _ => ExecResp.result ⟨[]⟩) true).verifyCalls = 0 ∧
    (callTool "ap_gw" "nonexistent_tool" [] ⟨true, 2, 1, false⟩
        (fun _ _ => ClientResp.decision ⟨"d1", true, []⟩)
        (fun _ _ => ExecResp.result ⟨[]⟩) true).execCalls = 0 ∧
    (attemptArgsList (callTool "ap_gw" "nonexistent_tool" [] ⟨true, 2, 1, false⟩
        (fun _ _ => ClientResp.decision ⟨"d1", true, []⟩)
        (fun _ _ => ExecResp.result ⟨[]⟩) true).events).length = 2 ∧
    (callTool "ap_gw" "nonexistent_tool" [] ⟨true, 2, 1, false⟩
        (fun _ _ => ClientResp.decision ⟨"d1", true, []⟩)
        (fun _ _ => ExecResp.result ⟨[]⟩) true).result
      = Except.error (PyErr.valueError (unmappedToolMessage "nonexistent_tool")) :=
  ⟨rfl, claim_C2_amended "ap_gw" "nonexistent_tool" [] ⟨true, 2, 1, false⟩
    (fun _ _ => ClientResp.decision ⟨"d1", true, []⟩)
    (fun _ _ => ExecResp.result ⟨[]⟩) true rfl rfl (by decide)⟩

/-- Claim C3: with `retry_on_denial = false` and `skip_verification =
false`, against a client that denies the queried context, `call_tool`
terminates with the `PolicyDeniedError` after exactly one verification
call and zero executor calls, regardless of how many attempts remain in
`max_retries`. -/
theorem claim_C3_denied_no_retry (agent tool : String) (args : Args) (cfg : CallConfig)
    (client : PolicyClient) (exec : ToolExecutor) (connected : Bool) (pid : String)
    (dec : Decision)
    (hskip : cfg.skip_verification = false) (hretry : cfg.retry_on_denial = false)
    (hmax : 1 ≤ cfg.max_retries)
    (hpid : get_policy_id_for_tool tool = Except.ok pid)
    (hclient : client 0 (build_policy_context agent tool args) = ClientResp.decision dec)
    (hdeny : dec.allow = false) :
    (callTool agent tool args cfg client exec connected).verifyCalls = 1 ∧
    (callTool agent tool args cfg client exec connected).execCalls = 0 ∧
    (callTool agent tool args cfg client exec connected).result
      = Except.error (PyErr.policyDenied (denialMessage dec)
          (DenialPayload.fromDecision dec)) := by
  obtain ⟨k, hk⟩ : ∃ k, cfg.max_retries = k + 1 := ⟨cfg.max_retries - 1, by omega⟩
  have hA := runAttempt_denied agent tool client exec connected args 0 0 pid dec hpid
    hclient hdeny
  have hH : denialHandler cfg tool 0 args (PyErr.policyDenied (denialMessage dec)
        (DenialPayload.fromDecision dec))
      = HandlerStep.stop (PyErr.policyDenied (denialMessage dec)
        (DenialPayload.fromDecision dec)) := by
    simp [denialHandler, hretry]
  refine ⟨?_, ?_, ?_⟩
  · show (callToolGo agent tool cfg client exec connected cfg.max_retries 0 args 1 0 0
        none).vIdx = 1
    rw [hk]
    simp [callToolGo, hskip, hA, hH]
  · show (callToolGo agent tool cfg client exec connected cfg.max_retries 0 args 1 0 0
        none).eIdx = 0
    rw [hk]
    simp [callToolGo, hskip, hA, hH]
  · show (callToolGo agent tool cfg client exec connected cfg.max_retries 0 args 1 0 0
        none).result = Except.error (PyErr.policyDenied (denialMessage dec)
          (DenialPayload.fromDecision dec))
    rw [hk]
    simp [callToolGo, hskip, hA, hH]

/-- Witness for C3: a concrete denied refund with three attempts allowed. -/
theorem claim_C3_witness :
    (⟨false, 3, 1, false⟩ : CallConfig).retry_on_denial = false ∧
    (callTool "ap_gw" "process_refund" [("amount", Value.vInt 1000000)] ⟨false, 3, 1, false⟩
        (fun _ _ => ClientResp.decision ⟨"d1", false, []⟩)
        (fun _ _ => ExecResp.result ⟨[]⟩) true).verifyCalls = 1 ∧
    (callTool "ap_gw" "process_refund" [("amount", Value.vInt 1000000)] ⟨false, 3, 1, false⟩
        (fun _ _ => ClientResp.decision ⟨"d1", false, []⟩)
        (fun _ _ => ExecResp.result ⟨[]⟩) true).execCalls = 0 ∧
    (callTool "ap_gw" "process_refund" [("amount", Value.vInt 1000000)] ⟨false, 3, 1, false⟩
        (fun _ _ => ClientResp.decision ⟨"d1", false, []⟩)
        (fun _ _ => ExecResp.result ⟨[]⟩) true).result
      = Except.error (PyErr.policyDenied (denialMessage ⟨"d1", false, []⟩)
          (DenialPayload.fromDecision ⟨"d1", false, []⟩)) := by
  refine ⟨rfl, ?_⟩
  exact claim_C3_denied_no_retry "ap_gw" "process_refund" [("amount", Value.vInt 1000000)]
    ⟨false, 3, 1, false⟩ (fun _ _ => ClientResp.decision ⟨"d1", false, []⟩)
    (fun _ _ => ExecResp.result ⟨[]⟩) true "finance.payment.refund.v1" ⟨"d1", false, []⟩
    rfl rfl (by decide) rfl rfl rfl

/-- Claim C4 counterexample: the adjustment has no floor of 1.  A refund of
amount 1, denied with retry enabled, is halved to 0: the second attempt
runs with `amount = 0`, refuting "strictly decreasing with a floor of 1
(never reaching 0)". -/
theorem claim_C4_counterexample :
    attemptArgsList (callTool "ap_gw" "process_refund" [("amount", Value.vInt 1)]
        ⟨true, 2, 1, false⟩ (fun _ _ => ClientResp.decision ⟨"d1", false, []⟩)
        (fun _ _ => ExecResp.result ⟨[]⟩) true).events
      = [[("amount", Value.vInt 1)], [("amount", Value.vInt 0)]] := rfl

/-- Claim C4 amended: every denial-triggered retry rewrites the arguments
by `adjustArgsForRetry` (consecutive attempt arguments are equal or so
related), the attempt count never exceeds `max_retries`, and the
adjustment halves the reducible field by truncating integer division with
NO floor: the value strictly decreases while positive and stays
non-negative, so it can reach 0 (the loop is nevertheless bounded by
`max_retries`). -/
theorem claim_C4_amended (agent tool : String) (args : Args) (cfg : CallConfig)
    (client : PolicyClient) (exec : ToolExecutor) (connected : Bool)
    (c c' b b' : Args) (n m : Int)
    (hadjA : adjustArgsForRetry "process_refund" c = Except.ok c')
    (hamt : dictGet c "amount" = some (Value.vInt n)) (hn : 0 < n)
    (hadjB : adjustArgsForRetry "export_customer_data" b = Except.ok b')
    (hlim : dictGet b "limit" = some (Value.vInt m)) (hm : 0 < m) :
    (attemptArgsList (callTool agent tool args cfg client exec connected).events).length
        ≤ cfg.max_retries ∧
    List.Chain' (retryStepRel tool)
      (attemptArgsList (callTool agent tool args cfg client exec connected).events) ∧
    c' = dictSet c "amount" (Value.vInt (pyHalfInt n)) ∧ pyHalfInt n < n ∧
      0 ≤ pyHalfInt n ∧
    b' = dictSet b "limit" (Value.vInt (pyHalfInt m)) ∧ pyHalfInt m < m ∧
      0 ≤ pyHalfInt m := by
  obtain ⟨h1, -, h3⟩ := callToolGo_attemptArgs agent tool cfg client exec connected
    cfg.max_retries 0 args 1 0 0 none
  have hc' : c' = dictSet c "amount" (Value.vInt (pyHalfInt n)) := by
    rw [adjustArgsForRetry_refund c n hamt] at hadjA
    exact (Except.ok.inj hadjA).symm
  have hb' : b' = dictSet b "limit" (Value.vInt (pyHalfInt m)) := by
    rw [adjustArgsForRetry_export b m hlim] at hadjB
    exact (Except.ok.inj hadjB).symm
  exact ⟨h1, h3, hc', pyHalfInt_lt n hn, pyHalfInt_nonneg n (le_of_lt hn), hb',
    pyHalfInt_lt m hm, pyHalfInt_nonneg m (le_of_lt hm)⟩

/-- Witness for amended C4 at concrete halvings and the refund deny-retry
run of the spec scenario. -/
theorem claim_C4_witness :
    adjustArgsForRetry "process_refund" [("amount", Value.vInt 5)]
      = Except.ok [("amount", Value.vInt 2)] ∧
    ((attemptArgsList (callTool "ap_gw" "process_refund" [("amount", Value.vInt 1000000)]
        ⟨true, 3, 1, false⟩ (fun _ _ => ClientResp.decision ⟨"d1", false, []⟩)
        (fun _ _ => ExecResp.result ⟨[]⟩) true).events).length ≤ 3 ∧
      List.Chain' (retryStepRel "process_refund")
        (attemptArgsList (callTool "ap_gw" "process_refund"
          [("amount", Value.vInt 1000000)] ⟨true, 3, 1, false⟩
          (fun _ _ => ClientResp.decision ⟨"d1", false, []⟩)
          (fun _ _ => ExecResp.result ⟨[]⟩) true).events) ∧
      [("amount", Value.vInt 2)]
          = dictSet [("amount", Value.vInt 5)] "amount" (Value.vInt (pyHalfInt 5)) ∧
        pyHalfInt 5 < 5 ∧ 0 ≤ pyHalfInt 5 ∧
      [("limit", Value.vInt 3)]
          = dictSet [("limit", Value.vInt 7)] "limit" (Value.vInt (pyHalfInt 7)) ∧
        pyHalfInt 7 < 7 ∧ 0 ≤ pyHalfInt 7) :=
  ⟨rfl, claim_C4_amended "ap_gw" "process_refund" [("amount", Value.vInt 1000000)]
    ⟨true, 3, 1, false⟩ (fun _ _ => ClientResp.decision ⟨"d1", false, []⟩)
    (fun _ _ => ExecResp.result ⟨[]⟩) true
    [("amount", Value.vInt 5)] [("amount", Value.vInt 2)]
    [("limit", Value.vInt 7)] [("limit", Value.vInt 3)] 5 7
    rfl rfl (by decide) rfl rfl (by decide)⟩

/-- Claim C5 counterexample: `call_tool` itself does throw terminal
failures across the async boundary: a transport error from the executor,
with the attempt budget exhausted, is re-raised as the raw underlying
exception rather than returned as a typed result. -/
theorem claim_C5_counterexample :
    (callTool "ap_gw" "process_refund" [] ⟨false, 1, 1, false⟩
        (fun _ _ => ClientResp.decision ⟨"d1", true, []⟩)
        (fun _ _ => ExecResp.raiseErr (PyErr.generic "boom")) true).result
      = Except.error (PyErr.generic "boom") := rfl

/-- How the `except` blocks of `handle_function_call` format a caught
exception into the function-result content. -/
def failureContent (e : PyErr) : String :=
  match e with
  | PyErr.policyDenied _ _ => "Policy denied: " ++ errStr e
  | _ => "Error: " ++ errStr e

/-- Claim C5 amended: `call_tool` signals terminal failures by raising
(`PolicyDeniedError` for denials, the raw underlying exception otherwise);
it is the OpenAI integration layer `handle_function_call` that catches
every such exception and returns all terminal failures as typed
function-result messages, never propagating an exception to its caller. -/
theorem claim_C5_amended (agent function_name : String) (arguments : Args)
    (client : PolicyClient) (exec : ToolExecutor) (connected : Bool) (e : PyErr)
    (h : (callTool agent (map_openai_function_to_mcp_tool function_name) arguments
        ⟨true, 3, 1, false⟩ client exec connected).result = Except.error e) :
    handle_function_call agent function_name arguments client exec connected =
      ⟨"function", function_name, failureContent e⟩ := by
  cases e <;>
    (simp only [handle_function_call]
     rw [h])
  <;> rfl

/-- Witness for amended C5: the concrete executor-transport failure is
returned to OpenAI as a typed function message. -/
theorem claim_C5_witness :
    handle_function_call "ap_gw" "process_refund" []
        (fun _ _ => ClientResp.decision ⟨"d1", true, []⟩)
        (fun _ _ => ExecResp.raiseErr (PyErr.generic "boom")) true
      = ⟨"function", "process_refund", "Error: boom"⟩ :=
  claim_C5_amended "ap_gw" "process_refund" []
    (fun _ _ => ClientResp.decision ⟨"d1", true, []⟩)
    (fun _ _ => ExecResp.raiseErr (PyErr.generic "boom")) true (PyErr.generic "boom") rfl

/-- Claim C6: a tool result whose content carries the textual marker
`"Policy denied"` is treated exactly like a client-side denial even though
verification returned `allow = true`: the attempt raises
`PolicyDeniedError` with the marked text and the raw result, and the loop
hands it to `denialHandler` — the same handler that processes client-side
denials — so a retry with adjusted arguments happens when
`retry_on_denial` is enabled and attempts remain, and the denial is
re-raised otherwise. -/
theorem claim_C6_server_marker_denial (agent tool : String) (cfg : CallConfig)
    (client : PolicyClient) (exec : ToolExecutor) (r attempt : Nat) (cur : Args)
    (addr vIdx eIdx : Nat) (lastErr : Option PyErr) (pid : String) (d : Decision)
    (res : ToolResult) (t : String)
    (hskip : cfg.skip_verification = false)
    (hpid : get_policy_id_for_tool tool = Except.ok pid)
    (hclient : client vIdx (build_policy_context agent tool cur) = ClientResp.decision d)
    (hallow : d.allow = true)
    (hexec : exec eIdx (dictSet cur "agent_id" (Value.vStr agent)) = ExecResp.result res)
    (hmark : findDenialText res.content = some t) :
    callToolGo agent tool cfg client exec true (r + 1) attempt cur addr vIdx eIdx lastErr =
      (match denialHandler cfg tool attempt cur
          (PyErr.policyDenied t (DenialPayload.fromResult res)) with
       | HandlerStep.stop e2 =>
           ⟨[Event.attemptStart attempt addr cur,
             Event.verifyCall (build_policy_context agent tool cur) d,
             Event.executeCall (dictSet cur "agent_id" (Value.vStr agent)) res],
            vIdx + 1, eIdx + 1, cur, Except.error e2⟩
       | HandlerStep.retry cur' delay =>
           let k := callToolGo agent tool cfg client exec true r (attempt + 1) cur' addr
             (vIdx + 1) (eIdx + 1)
             (some (PyErr.policyDenied t (DenialPayload.fromResult res)))
           ⟨[Event.attemptStart attempt addr cur,
             Event.verifyCall (build_policy_context agent tool cur) d,
             Event.executeCall (dictSet cur "agent_id" (Value.vStr agent)) res]
              ++ Event.sleepEvent attempt delay :: k.events,
            k.vIdx, k.eIdx, k.curFinal, k.result⟩) := by
  have hA := runAttempt_marker agent tool client exec cur vIdx eIdx pid d res t hpid
    hclient hallow hexec hmark
  cases hh : denialHandler cfg tool attempt cur
      (PyErr.policyDenied t (DenialPayload.fromResult res)) with
  | stop e2 => simp [callToolGo, hskip, hA, hh]
  | retry cur' delay => simp [callToolGo, hskip, hA, hh]

/-- Witness for C6: a concrete marked server result with retry enabled. -/
theorem claim_C6_witness :
    (⟨true, 3, 1, false⟩ : CallConfig).skip_verification = false ∧
    callToolGo "ap_gw" "process_refund" ⟨true, 3, 1, false⟩
        (fun _ _ => ClientResp.decision ⟨"d1", true, []⟩)
        (fun _ _ => ExecResp.result
          ⟨[ContentItem.textItem "Policy denied: over limit"]⟩) true
        (2 + 1) 0 [("amount", Value.vInt 8)] 1 0 0 none =
      (match denialHandler ⟨true, 3, 1, false⟩ "process_refund" 0 [("amount", Value.vInt 8)]
          (PyErr.policyDenied "Policy denied: over limit" (DenialPayload.fromResult
            ⟨[ContentItem.textItem "Policy denied: over limit"]⟩)) with
       | HandlerStep.stop e2 =>
           ⟨[Event.attemptStart 0 1 [("amount", Value.vInt 8)],
             Event.verifyCall (build_policy_context "ap_gw" "process_refund"
               [("amount", Value.vInt 8)]) ⟨"d1", true, []⟩,
             Event.executeCall (dictSet [("amount", Value.vInt 8)] "agent_id"
               (Value.vStr "ap_gw"))
               ⟨[ContentItem.textItem "Policy denied: over limit"]⟩],
            0 + 1, 0 + 1, [("amount", Value.vInt 8)], Except.error e2⟩
       | HandlerStep.retry cur' delay =>
           let k := callToolGo "ap_gw" "process_refund" ⟨true, 3, 1, false⟩
             (fun _ _ => ClientResp.decision ⟨"d1", true, []⟩)
             (fun _ _ => ExecResp.result
               ⟨[ContentItem.textItem "Policy denied: over limit"]⟩) true
             2 (0 + 1) cur' 1 (0 + 1) (0 + 1)
             (some (PyErr.policyDenied "Policy denied: over limit"
               (DenialPayload.fromResult
                 ⟨[ContentItem.textItem "Policy denied: over limit"]⟩)))
           ⟨[Event.attemptStart 0 1 [("amount", Value.vInt 8)],
             Event.verifyCall (build_policy_context "ap_gw" "process_refund"
               [("amount", Value.vInt 8)]) ⟨"d1", true, []⟩,
             Event.executeCall (dictSet [("amount", Value.vInt 8)] "agent_id"
               (Value.vStr "ap_gw"))
               ⟨[ContentItem.textItem "Policy denied: over limit"]⟩]
              ++ Event.sleepEvent 0 delay :: k.events,
            k.vIdx, k.eIdx, k.curFinal, k.result⟩) :=
  ⟨rfl, claim_C6_server_marker_denial "ap_gw" "process_refund" ⟨true, 3, 1, false⟩
    (fun _ _ => ClientResp.decision ⟨"d1", true, []⟩)
    (fun _ _ => ExecResp.result ⟨[ContentItem.textItem "Policy denied: over limit"]⟩)
    2 0 [("amount", Value.vInt 8)] 1 0 0 none "finance.payment.refund.v1"
    ⟨"d1", true, []⟩ ⟨[ContentItem.textItem "Policy denied: over limit"]⟩
    "Policy denied: over limit" rfl rfl rfl rfl rfl rfl⟩

/-- Claim C7: every backoff sleep of a `call_tool` run at attempt index `i`
(whether after a denial-adjustment retry or after a generic transient
error) lasts `retry_backoff * (i + 1)` seconds: the delay grows linearly
with the attempt index. -/
theorem claim_C7_backoff_linear (agent tool : String) (args : Args) (cfg : CallConfig)
    (client : PolicyClient) (exec : ToolExecutor) (connected : Bool) :
    ∀ ev ∈ (callTool agent tool args cfg client exec connected).events,
      ∀ i q, ev = Event.sleepEvent i q → q = cfg.retry_backoff * ((i : ℚ) + 1) :=
  callToolGo_sleep_linear agent tool cfg client exec connected cfg.max_retries 0 args 1 0 0
    none

/-- Witness for C7: the second backoff of a concrete run lasts
`retry_backoff * (1 + 1)` seconds. -/
theorem claim_C7_witness :
    Event.sleepEvent 1 ((1 : ℚ) * (((1 : Nat) : ℚ) + 1))
      ∈ (callTool "ap_gw" "nonexistent_tool" [] ⟨false, 3, 1, false⟩
        (fun _ _ => ClientResp.decision ⟨"d1", true, []⟩)
        (fun _ _ => ExecResp.result ⟨[]⟩) true).events ∧
    ((1 : ℚ) * (((1 : Nat) : ℚ) + 1))
      = (⟨false, 3, 1, false⟩ : CallConfig).retry_backoff * (((1 : Nat) : ℚ) + 1) :=
  ⟨List.Mem.tail _ (List.Mem.tail _ (List.Mem.tail _ (List.Mem.head _))),
   claim_C7_backoff_linear "ap_gw" "nonexistent_tool" [] ⟨false, 3, 1, false⟩
     (fun _ _ => ClientResp.decision ⟨"d1", true, []⟩)
     (fun _ _ => ExecResp.result ⟨[]⟩) true
     (Event.sleepEvent 1 ((1 : ℚ) * (((1 : Nat) : ℚ) + 1)))
     (List.Mem.tail _ (List.Mem.tail _ (List.Mem.tail _ (List.Mem.head _))))
     1 ((1 : ℚ) * (((1 : Nat) : ℚ) + 1)) rfl⟩

/-- Claim C8 counterexample: the policy context does NOT always include
the gateway identity: when the caller supplies an `agent_id` argument, the
`**args` spread overwrites the identity field with the caller value. -/
theorem claim_C8_counterexample :
    dictGet (build_policy_context "ap_gw" "merge_pull_request"
        [("agent_id", Value.vStr "other_agent")]) "agent_id"
      = some (Value.vStr "other_agent") ∧
    some (Value.vStr "other_agent") ≠ some (Value.vStr "ap_gw") :=
  ⟨rfl, by decide⟩

/-- Claim C8 amended: the context preserves every caller-supplied entry
(so enrichment never overwrites a caller value), it carries the gateway
identity whenever the caller did not supply an `agent_id` key (a supplied
`agent_id` overrides it — see C10), and the per-tool enrichment fills its
default only when the caller omitted the key. -/
theorem claim_C8_amended (agent tool : String) (args : Args)
    (hnd : (args.map Prod.fst).Nodup) :
    (∀ k v, dictGet args k = some v →
      dictGet (build_policy_context agent tool args) k = some v) ∧
    (dictGet args "agent_id" = none →
      dictGet (build_policy_context agent tool args) "agent_id"
        = some (Value.vStr agent)) ∧
    (tool = "merge_pull_request" → dictGet args "base_branch" = none →
      dictGet (build_policy_context agent tool args) "base_branch"
        = some (Value.vStr "main")) ∧
    (tool = "merge_pull_request" → dictGet args "pr_size_kb" = none →
      dictGet (build_policy_context agent tool args) "pr_size_kb"
        = some (Value.vInt 250)) ∧
    (tool = "process_refund" → dictGet args "reason_code" = none →
      dictGet (build_policy_context agent tool args) "reason_code"
        = some (Value.vStr "customer_request")) := by
  refine ⟨fun k v h => bpc_preserves_get agent tool args k v hnd h,
    fun h => bpc_agent_id_default agent tool args h,
    fun ht h => ?_, fun ht h => ?_, fun ht h => ?_⟩
  · subst ht
    exact bpc_base_branch_default agent args h
  · subst ht
    exact bpc_pr_size_default agent args h
  · subst ht
    exact bpc_reason_code_default agent args h

/-- Witness for amended C8: defaults filled for an omitted key, caller
entry preserved. -/
theorem claim_C8_witness :
    dictGet (build_policy_context "ap_gw" "merge_pull_request"
        [("pr_number", Value.vInt 5)]) "base_branch" = some (Value.vStr "main") ∧
    dictGet (build_policy_context "ap_gw" "merge_pull_request"
        [("pr_number", Value.vInt 5)]) "pr_number" = some (Value.vInt 5) :=
  ⟨(claim_C8_amended "ap_gw" "merge_pull_request" [("pr_number", Value.vInt 5)]
      (by decide)).2.2.1 rfl rfl,
   (claim_C8_amended "ap_gw" "merge_pull_request" [("pr_number", Value.vInt 5)]
      (by decide)).1 "pr_number" (Value.vInt 5) rfl⟩

/-- Claim C9 counterexample: retries do NOT produce a new mapping: both
attempts of this deny-retry run record the same dict address 1 (the one
copy made by `args.copy()`), whose contents have changed in place between
the attempts, so the first attempt's arguments are not preserved. -/
theorem claim_C9_counterexample :
    (callTool "ap_gw" "process_refund" [("amount", Value.vInt 1000000)] ⟨true, 2, 1, false⟩
        (fun _ _ => ClientResp.decision ⟨"d1", false, []⟩)
        (fun _ _ => ExecResp.result ⟨[]⟩) true).events.get? 0
      = some (Event.attemptStart 0 1 [("amount", Value.vInt 1000000)]) ∧
    (callTool "ap_gw" "process_refund" [("amount", Value.vInt 1000000)] ⟨true, 2, 1, false⟩
        (fun _ _ => ClientResp.decision ⟨"d1", false, []⟩)
        (fun _ _ => ExecResp.result ⟨[]⟩) true).events.get? 3
      = some (Event.attemptStart 1 1 [("amount", Value.vInt 500000)]) ∧
    [("amount", Value.vInt 1000000)] ≠ [("amount", Value.vInt 500000)] :=
  ⟨rfl, rfl, by decide⟩

/-- Claim C9 amended: `call_tool` copies the caller's mapping once
(`args.copy()`, a fresh dict at address 1, distinct from the caller's
address 0) and then mutates that single copy in place across retries, so
every attempt runs on the same dict object; the caller-supplied mapping is
unchanged after `call_tool` returns or raises. -/
theorem claim_C9_amended (agent tool : String) (args : Args) (cfg : CallConfig)
    (client : PolicyClient) (exec : ToolExecutor) (connected : Bool) :
    (callTool agent tool args cfg client exec connected).finalCaller = args ∧
    ∀ ev ∈ (callTool agent tool args cfg client exec connected).events,
      ∀ i a c, ev = Event.attemptStart i a c → a = 1 :=
  ⟨rfl, callToolGo_addr agent tool cfg client exec connected cfg.max_retries 0 args 1 0 0
    none⟩

/-- Witness for amended C9 at a concrete run. -/
theorem claim_C9_witness :
    (callTool "ap_gw" "merge_pull_request" [("pr_number", Value.vInt 5)]
        ⟨false, 1, 1, false⟩ (fun _ _ => ClientResp.decision ⟨"d1", false, []⟩)
        (fun _ _ => ExecResp.result ⟨[]⟩) true).finalCaller
      = [("pr_number", Value.vInt 5)] ∧
    (1 : Nat) = 1 :=
  ⟨(claim_C9_amended "ap_gw" "merge_pull_request" [("pr_number", Value.vInt 5)]
      ⟨false, 1, 1, false⟩ (fun _ _ => ClientResp.decision ⟨"d1", false, []⟩)
      (fun _ _ => ExecResp.result ⟨[]⟩) true).1,
   (claim_C9_amended "ap_gw" "merge_pull_request" [("pr_number", Value.vInt 5)]
      ⟨false, 1, 1, false⟩ (fun _ _ => ClientResp.decision ⟨"d1", false, []⟩)
      (fun _ _ => ExecResp.result ⟨[]⟩) true).2
     (Event.attemptStart 0 1 [("pr_number", Value.vInt 5)]) (List.Mem.head _)
     0 1 [("pr_number", Value.vInt 5)] rfl⟩

/-- Claim C10: when the caller-supplied arguments contain an `agent_id`
key, every policy context of the run carries the caller-supplied value
(the `**args` spread overwrites the gateway identity), while every set of
arguments dispatched to the executor carries the gateway's own `agent_id`
(written after the spread): verification and dispatch can observe
different identities in the same attempt. -/
theorem claim_C10_identity_split (agent tool : String) (args : Args) (cfg : CallConfig)
    (client : PolicyClient) (exec : ToolExecutor) (connected : Bool) (w : Value)
    (hnd : (args.map Prod.fst).Nodup)
    (hw : dictGet args "agent_id" = some w) :
    ∀ ev ∈ (callTool agent tool args cfg client exec connected).events,
      (∀ ctx, ctxOf ev = some ctx → dictGet ctx "agent_id" = some w) ∧
      (∀ a, execArgsOf ev = some a → dictGet a "agent_id" = some (Value.vStr agent)) :=
  callToolGo_identities agent tool cfg client exec connected w cfg.max_retries 0 args 1 0 0
    none hw hnd

/-- Witness for C10: in one attempt, the verified context carries the
caller identity and the dispatched arguments carry the gateway identity. -/
theorem claim_C10_witness :
    dictGet (build_policy_context "ap_gw" "process_refund"
        [("agent_id", Value.vStr "caller_7"), ("amount", Value.vInt 9)]) "agent_id"
      = some (Value.vStr "caller_7") ∧
    dictGet (dictSet [("agent_id", Value.vStr "caller_7"), ("amount", Value.vInt 9)]
        "agent_id" (Value.vStr "ap_gw")) "agent_id" = some (Value.vStr "ap_gw") :=
  ⟨(claim_C10_identity_split "ap_gw" "process_refund"
      [("agent_id", Value.vStr "caller_7"), ("amount", Value.vInt 9)] ⟨false, 1, 1, false⟩
      (fun _ _ => ClientResp.decision ⟨"d1", true, []⟩)
      (fun _ _ => ExecResp.result ⟨[]⟩) true (Value.vStr "caller_7") (by decide) rfl
      (Event.verifyCall (build_policy_context "ap_gw" "process_refund"
        [("agent_id", Value.vStr "caller_7"), ("amount", Value.vInt 9)]) ⟨"d1", true, []⟩)
      (List.Mem.tail _ (List.Mem.head _))).1
     (build_policy_context "ap_gw" "process_refund"
       [("agent_id", Value.vStr "caller_7"), ("amount", Value.vInt 9)]) rfl,
   (claim_C10_identity_split "ap_gw" "process_refund"
      [("agent_id", Value.vStr "caller_7"), ("amount", Value.vInt 9)] ⟨false, 1, 1, false⟩
      (fun _ _ => ClientResp.decision ⟨"d1", true, []⟩)
      (fun _ _ => ExecResp.result ⟨[]⟩) true (Value.vStr "caller_7") (by decide) rfl
      (Event.executeCall (dictSet [("agent_id", Value.vStr "caller_7"),
        ("amount", Value.vInt 9)] "agent_id" (Value.vStr "ap_gw")) ⟨[]⟩)
      (List.Mem.tail _ (List.Mem.tail _ (List.Mem.head _)))).2
     (dictSet [("agent_id", Value.vStr "caller_7"), ("amount", Value.vInt 9)] "agent_id"
       (Value.vStr "ap_gw")) rfl⟩

end MCPGate
